import Mathlib

/-!
Verification of the table-FAQ ingestion pipeline: a shallow embedding of the
extraction, chunking, embedding, storage and proxy code of
`src/integration/table_extraction_service.py`,
`src/integration/table_chunking_service.py`,
`src/integration/table_faq_ingestion_service.py` and
`src/integration/rag_ingestion_adapter.py`, together with theorems about it.

Conventions of the embedding:

* Pure Python functions become Lean functions; dataclasses become structures.
* Calls to external collaborators (the embedding provider, the vector store)
  are modelled as oracles returning `Except String _`: the `Except.error` case
  stands for the call raising an exception, which the calling code either
  catches (per-chunk `try`/`except`) or lets propagate, exactly as the source
  does.
* The filesystem effect of the extraction service (the `/tmp/<filename>`
  staging file) is made explicit: `extract` returns, next to its result, the
  Boolean "the temporary file still exists after the call returned".
* pandas `NaN` cells are `Cell.na`; a dataframe is a column list plus rows of
  cells aligned positionally with the columns.
-/

set_option linter.unusedVariables false

namespace TableFaq

/-- Python `str.strip` on the underlying character list: drop leading and then
trailing whitespace, as `"  x ".strip()` does. -/
def stripChars (l : List Char) : List Char :=
  ((l.dropWhile Char.isWhitespace).reverse.dropWhile Char.isWhitespace).reverse

/-- Python `str.strip` for strings. -/
def pyStrip (s : String) : String := ⟨stripChars s.data⟩

/-- Python `str.split(sep)` for a one-character separator, as a structural
recursion over the characters (`acc` holds the current piece reversed):
`"".split(sep) == ['']`, and no empty piece is removed. -/
def splitCharAux (sep : Char) : List Char → List Char → List String
  | [], acc => [⟨acc.reverse⟩]
  | c :: cs, acc =>
    if c = sep then ⟨acc.reverse⟩ :: splitCharAux sep cs []
    else splitCharAux sep cs (c :: acc)

/-- Python `s.split(sep)` for a one-character separator. -/
def pySplitChar (sep : Char) (s : String) : List String := splitCharAux sep s.data []

/-- Whether the first list is an initial segment of the second. -/
def charsStart : List Char → List Char → Bool
  | [], _ => true
  | _ :: _, [] => false
  | p :: ps, c :: cs => p = c && charsStart ps cs

/-- Python `s.startswith(pre)`. -/
def pyStartsWith (s pre : String) : Bool := charsStart pre.data s.data

/-- Python `s.upper()` (the extensions compared here are ASCII). -/
def pyUpper (s : String) : String := ⟨s.data.map Char.toUpper⟩

/-- A spreadsheet cell as pandas hands it to the extraction code: a string
value or a missing value (`NaN`). -/
inductive Cell
  | str (s : String)
  | na
deriving DecidableEq

/-- Python `str()` applied to the cell value: pandas materialises a missing
cell as `float('nan')`, whose `str()` is `"nan"`. -/
def Cell.toStr : Cell → String
  | .str s => s
  | .na => "nan"

/-- A dataframe: named columns, and rows of cells positionally aligned with
the column list. -/
structure Df where
  columns : List String
  rows : List (List Cell)
deriving DecidableEq

/-- pandas `row.get(c, default)` on a row of `cols`: the cell under the first
column named `c`, or `default` when no such column exists. -/
def rowGet (cols : List String) (row : List Cell) (c : String) (default : Cell) : Cell :=
  match (cols.zip row).lookup c with
  | some cell => cell
  | none => default

/-- One extracted question/answer record, the dict built per row by
`_extract_qa_pairs_from_dataframe`. -/
structure QAPair where
  question : String
  answer : String
  comment : Option String
  row_id : String
  index : Nat
deriving DecidableEq

/-- The `dropna(subset=['Frage', 'Antwort'])` and blank filters applied to the
dataframe before `iterrows`: a row survives when both cells exist as strings
and are non-blank after stripping.  (The source's `.str` accessor presumes
string cells; a row with a missing `Frage`/`Antwort` column never reaches this
code because the caller validated the required columns.) -/
def keepQaRow (cols : List String) (row : List Cell) : Bool :=
  match (cols.zip row).lookup "Frage", (cols.zip row).lookup "Antwort" with
  | some (Cell.str q), some (Cell.str a) => pyStrip q != "" && pyStrip a != ""
  | _, _ => false

/-- The dict literal of `_extract_qa_pairs_from_dataframe` for one surviving
row: every field is `str(...)` of the cell, stripped; `comment` exists only
when a `Kommentar` column does; `row_id` falls back to `row_<index>` when the
`Nr.` column is absent. -/
def mkQaPair (cols : List String) (idx : Nat) (row : List Cell) : QAPair :=
  { question := pyStrip (rowGet cols row "Frage" (Cell.str "")).toStr
    answer := pyStrip (rowGet cols row "Antwort" (Cell.str "")).toStr
    comment :=
      if cols.contains "Kommentar" then
        some (pyStrip (rowGet cols row "Kommentar" (Cell.str "")).toStr)
      else none
    row_id := pyStrip (rowGet cols row "Nr." (Cell.str ("row_" ++ toString idx))).toStr
    index := idx }

/-- `TableExtractionService._extract_qa_pairs_from_dataframe`: filter the rows
(keeping their original pandas index labels, as `iterrows` does after the
filters), build the dict per row, and keep it only when question and answer
are truthy (non-empty) strings. -/
def extractQaPairsFromDf (df : Df) : List QAPair :=
  ((df.rows.enum.filter fun p => keepQaRow df.columns p.2).filterMap fun p =>
    let qa := mkQaPair df.columns p.1 p.2
    if qa.question ≠ "" ∧ qa.answer ≠ "" then some qa else none)

/-- `TableExtractionService._prepare_content_for_chunking` (its `df` parameter
is unused by the source body): header lines, then one block per QA pair, with
the optional comment line pair inserted only for a truthy comment. -/
def prepareContentForChunking (qaPairs : List QAPair) (sheetName : String) : String :=
  let header := ["# FAQ-Daten aus Excel (Tabellenblatt: " ++ sheetName ++ ")", ""]
  let blocks := qaPairs.map fun qa =>
    ["## Frage " ++ qa.row_id, "", "**Frage:** " ++ qa.question, "",
     "**Antwort:** " ++ qa.answer]
    ++ (match qa.comment with
        | some c => if c ≠ "" then ["", "**Kommentar:** " ++ c] else []
        | none => [])
    ++ ["", "---", ""]
  String.intercalate "\n" (header ++ blocks.flatten)

/-- The required columns of `TableExtractionService.__init__`. -/
def expectedColumns : List String := ["Nr.", "Frage", "Antwort"]

/-- The optional columns of `TableExtractionService.__init__`. -/
def optionalColumns : List String := ["Kommentar"]

/-- The priority-ordered sheet names of `TableExtractionService.__init__`. -/
def expectedSheets : List String := ["Test_Chatbot", "FAQ_DEUTSCH", "FAQ_English"]

/-- The `missing_columns` computation shared by `_find_valid_sheet` and
`_validate_excel_structure`: required columns absent from the dataframe, in
required-column order. -/
def requiredMissing (df : Df) : List String :=
  expectedColumns.filter fun c => !(df.columns.contains c)

/-- The check of the priority loop of `_find_valid_sheet` for one expected
sheet name: the sheet must be present in the file and have no missing
required column. -/
def sheetCheck (sheets : List (String × Df)) (nm : String) : Option (String × Df) :=
  match sheets.lookup nm with
  | some df => if (requiredMissing df).isEmpty then some (nm, df) else none
  | none => none

/-- `TableExtractionService._find_valid_sheet`: first try the priority sheet
names in order, accepting the first present sheet with no missing required
column; else scan every sheet in file order under the same check; else none.
(The source's `except` around the spreadsheet library returns `(None, None)`
too; an unreadable file is modelled by the caller passing no sheet list.) -/
def findValidSheet (sheets : List (String × Df)) : Option (String × Df) :=
  match (expectedSheets.filterMap (sheetCheck sheets)).head? with
  | some r => some r
  | none => sheets.find? fun p => (requiredMissing p.2).isEmpty

/-- A processing-warning record (`message` and `warning_type`; the `details`
mapping of the source carries no information any claim depends on). -/
structure WarnRec where
  message : String
  warning_type : String
deriving DecidableEq

/-- A processing-error record (`message` and `error_type`). -/
structure ErrRec where
  message : String
  error_type : String
deriving DecidableEq

/-- `TableExtractionService._validate_excel_structure`: the missing required
columns, and warnings for absent optional columns and for unknown columns. -/
def validateExcelStructure (df : Df) (filename sheetName : String) :
    List String × List WarnRec :=
  let missing := expectedColumns.filter fun c => !(df.columns.contains c)
  let warnOptional := (optionalColumns.filter fun c => !(df.columns.contains c)).map
    fun c =>
      { message := "Optionale Spalte '" ++ c ++ "' fehlt im Tabellenblatt '"
          ++ sheetName ++ "'"
        warning_type := "missing_optional_column" }
  let unknown := df.columns.filter fun c =>
    !((expectedColumns ++ optionalColumns).contains c)
  let warnUnknown :=
    if unknown.isEmpty then []
    else [{ message := "Unbekannte Spalten gefunden in '" ++ sheetName ++ "': "
              ++ String.intercalate ", " unknown
            warning_type := "unknown_columns" : WarnRec }]
  (missing, warnOptional ++ warnUnknown)

/-- The result dataclass of `TableExtractionService.extract` (the `metadata`
dict of the source only replicates the fields below and feeds logging and the
chunking metadata, which no later stage reads for anything claim-relevant). -/
structure TableExtractionResult where
  content : String
  qa_pairs : List QAPair
  sheet_name : String
  total_rows : Nat
  total_columns : Nat
  processing_errors : List ErrRec
  processing_warnings : List WarnRec
deriving DecidableEq

/-- `TableExtractionService.extract`.  `file` is the parsed workbook (`none`
when the spreadsheet library cannot read the bytes, an exception
`_find_valid_sheet` catches into "no sheet found").  `bodyRaise` models an
unexpected exception thrown by the dataframe operations after sheet
validation — `_extract_qa_pairs_from_dataframe`'s pandas calls can raise, for
example, when a required column is numeric — which lands in the source's
final `except` branch; `none` means no such exception.  The second component
of the result is whether the staging file `/tmp/<filename>` still exists when
the call returns: the source creates it first and unlinks it on the
no-valid-sheet, missing-columns and success paths, but not in the `except`
branch. -/
def extract (filename : String) (file : Option (List (String × Df)))
    (bodyRaise : Option String) : TableExtractionResult × Bool :=
  match Option.bind file findValidSheet with
  | none =>
    ({ content := ""
       qa_pairs := []
       sheet_name := ""
       total_rows := 0
       total_columns := 0
       processing_errors :=
         [{ message := "Kein Tabellenblatt mit der erwarteten Struktur gefunden"
            error_type := "no_valid_sheet" }]
       processing_warnings := [] }, false)
  | some (sheetName, df) =>
    let v := validateExcelStructure df filename sheetName
    if !v.1.isEmpty then
      ({ content := ""
         qa_pairs := []
         sheet_name := sheetName
         total_rows := df.rows.length
         total_columns := df.columns.length
         processing_errors :=
           [{ message := "Pflichtspalten fehlen im Tabellenblatt '" ++ sheetName
                ++ "': " ++ String.intercalate ", " v.1
              error_type := "missing_required_columns" }]
         processing_warnings := v.2 }, false)
    else
      match bodyRaise with
      | some e =>
        ({ content := ""
           qa_pairs := []
           sheet_name := ""
           total_rows := 0
           total_columns := 0
           processing_errors :=
             [{ message := "Unerwarteter Fehler: " ++ e
                error_type := "unexpected_error" }]
           processing_warnings := v.2 }, true)
      | none =>
        let qas := extractQaPairsFromDf df
        ({ content := prepareContentForChunking qas sheetName
           qa_pairs := qas
           sheet_name := sheetName
           total_rows := df.rows.length
           total_columns := df.columns.length
           processing_errors := []
           processing_warnings := v.2 }, false)

/-- Python `l[-3:]`: the last `n` elements of a list (the whole list when it
is shorter). -/
def pyLastN (n : Nat) (l : List α) : List α := l.drop (l.length - n)

/-- The per-chunk metadata dict built by `_split_content_into_chunks` and
mutated in place by the embedding and storage stages; the keys the pipeline
ever writes are fields, absent keys are `none`.  `ε` is the embedding-vector
type, opaque to the code. -/
structure ChunkMetadata (ε : Type) where
  chunk_type : String
  qa_pairs_count : Nat
  chunk_size : Nat
  chunk_id : String
  embedding : Option ε := none
  embedding_model : Option String := none
  embedding_error : Option String := none
  storage_error : Option String := none
deriving DecidableEq

/-- The `TableChunk` dataclass.  `α` is the type of the QA-pair dicts, which
the chunker treats as opaque values. -/
structure TableChunk (α ε : Type) where
  content : String
  metadata : ChunkMetadata ε
  chunk_id : String
  qa_pairs : List α
deriving DecidableEq

/-- The mutable loop state of `_split_content_into_chunks`: finished chunks,
the pending line buffer, the pending QA list, the running size, and the chunk
counter. -/
structure ChunkState (α ε : Type) where
  chunks : List (TableChunk α ε)
  curContent : List String
  curQaPairs : List α
  curSize : Nat
  chunkId : Nat

/-- Python `sum(len(line) + 1 for line in lines)`. -/
def lineSizeSum (lines : List String) : Nat :=
  (lines.map fun l => l.length + 1).sum

/-- The chunk object built when a chunk is closed (and for the final flush):
content is the newline-join of the buffered lines, the id is sequential. -/
def mkTableChunk (chunkId : Nat) (contentLines : List String) (qas : List α) :
    TableChunk α ε :=
  let c := String.intercalate "\n" contentLines
  { content := c
    metadata :=
      { chunk_type := "table_qa"
        qa_pairs_count := qas.length
        chunk_size := c.length
        chunk_id := "table_chunk_" ++ toString chunkId }
    chunk_id := "table_chunk_" ++ toString chunkId
    qa_pairs := qas }

/-- The first block of the line loop of `_split_content_into_chunks`: when a
`## Frage` boundary line would overflow `max_chunk_size` and the buffer is
non-empty, close the current chunk and reset the buffer; the source then
computes the overlap lines from the just-reset (hence empty) buffer
(`current_chunk_content = []` happens before `current_chunk_content[-3:]` is
read). -/
def closeIfNeeded (maxChunkSize overlap : Nat) (st : ChunkState α ε)
    (line : String) : ChunkState α ε :=
  if pyStartsWith line "## Frage" = true ∧ maxChunkSize < st.curSize + (line.length + 1) ∧
      st.curContent ≠ [] then
    let chunks := st.chunks ++ [mkTableChunk st.chunkId st.curContent st.curQaPairs]
    let emptied : List String := []
    let base : ChunkState α ε :=
      { chunks := chunks, curContent := emptied, curQaPairs := [], curSize := 0
        chunkId := st.chunkId + 1 }
    if 0 < overlap ∧ chunks.isEmpty = false then
      let overlapLines := pyLastN 3 emptied
      { base with curContent := emptied ++ overlapLines
                  curSize := lineSizeSum overlapLines }
    else base
  else st

/-- The second block of the line loop: append the line to the buffer and add
`len(line) + 1` to the running size. -/
def appendLine (st : ChunkState α ε) (line : String) : ChunkState α ε :=
  { st with curContent := st.curContent ++ [line]
            curSize := st.curSize + (line.length + 1) }

/-- The third block of the line loop: on a boundary line, attribute the QA
pair at index `len(current_chunk_qa_pairs)` — the count within the current
chunk — when that index is in range. -/
def attributeQa (qaPairs : List α) (st : ChunkState α ε) (line : String) :
    ChunkState α ε :=
  if pyStartsWith line "## Frage" = true then
    match qaPairs[st.curQaPairs.length]? with
    | some qa => { st with curQaPairs := st.curQaPairs ++ [qa] }
    | none => st
  else st

/-- One iteration of the line loop of `_split_content_into_chunks`: the three
blocks in source order. -/
def chunkStep (maxChunkSize overlap : Nat) (qaPairs : List α)
    (st : ChunkState α ε) (line : String) : ChunkState α ε :=
  attributeQa qaPairs (appendLine (closeIfNeeded maxChunkSize overlap st line) line) line

/-- The loop state before the first line. -/
def initState : ChunkState α ε :=
  { chunks := [], curContent := [], curQaPairs := [], curSize := 0, chunkId := 0 }

/-- The final flush of `_split_content_into_chunks`: the last non-empty
buffer becomes one more chunk. -/
def finishChunks (st : ChunkState α ε) : List (TableChunk α ε) :=
  if st.curContent ≠ [] then
    st.chunks ++ [mkTableChunk st.chunkId st.curContent st.curQaPairs]
  else st.chunks

/-- `TableChunkingService._split_content_into_chunks`: fold the line loop over
`content.split('\n')` and flush the final non-empty buffer. -/
def splitContentIntoChunks (maxChunkSize overlap : Nat) (content : String)
    (qaPairs : List α) : List (TableChunk α ε) :=
  finishChunks
    ((pySplitChar '\n' content).foldl (chunkStep maxChunkSize overlap qaPairs) initState)

/-- The `TableChunkingResult` dataclass (its `metadata` dict aggregates
configuration and averages no later stage reads for anything claim-relevant). -/
structure TableChunkingResult (α ε : Type) where
  chunks : List (TableChunk α ε)
  total_chunks : Nat
deriving DecidableEq

/-- `TableChunkingService.chunk` with explicit `qa_pairs` (as the orchestrator
always calls it): split and wrap.  Its body raises nothing, so the
`except`/`raise` wrapper of the source is identity. -/
def chunkService (maxChunkSize overlap : Nat) (content : String)
    (qaPairs : List α) : TableChunkingResult α ε :=
  let chunks := splitContentIntoChunks maxChunkSize overlap content qaPairs
  { chunks := chunks, total_chunks := chunks.length }

/-- The external embedding collaborator (`AzureOpenAIEmbeddingService`, not
part of this repository): the call outcome of `get_text_embedding` per input
text, and the outcome of reading the `model_name` attribute — `Except.error`
standing for the access raising, exactly what the per-chunk `try` of the
orchestrator anticipates. -/
structure EmbeddingService (ε : Type) where
  get_text_embedding : String → Except String ε
  model_name : Except String String

/-- Step 3 of `TableFAQIngestionService.async_ingest` for one chunk: on
success attach `embedding` and then `embedding_model`; a raise in either
access is caught and recorded as `embedding_error` (an `embedding` already
attached stays attached when only the `model_name` access raises). -/
def embedChunk (emb : EmbeddingService ε) (c : TableChunk α ε) : TableChunk α ε :=
  match emb.get_text_embedding c.content with
  | .error e => { c with metadata := { c.metadata with embedding_error := some e } }
  | .ok v =>
    let c1 := { c with metadata := { c.metadata with embedding := some v } }
    match emb.model_name with
    | .ok mn => { c1 with metadata := { c1.metadata with embedding_model := some mn } }
    | .error e => { c1 with metadata := { c1.metadata with embedding_error := some e } }

/-- Step 3 of `async_ingest` over all chunks (strictly sequential, each chunk
independent). -/
def embeddingStage (emb : EmbeddingService ε) (chunks : List (TableChunk α ε)) :
    List (TableChunk α ε) :=
  chunks.map (embedChunk emb)

/-- The argument record of one `store_chunk` call as step 4 of `async_ingest`
builds it: chunk id, content, `metadata.get('embedding')` and the metadata. -/
structure StoreCall (ε : Type) where
  chunk_id : String
  content : String
  embedding : Option ε
  metadata : ChunkMetadata ε
deriving DecidableEq

/-- The external vector-store collaborator (`PostgreSQLVectorService`, not
part of this repository): the outcome of each `store_chunk` call, `Except.error`
standing for the call raising. `σ` is whatever the call returns. -/
structure VectorService (ε σ : Type) where
  store_chunk : StoreCall ε → Except String σ

/-- The `store_chunk` keyword arguments for a chunk. -/
def mkStoreCall (c : TableChunk α ε) : StoreCall ε :=
  { chunk_id := c.chunk_id
    content := c.content
    embedding := c.metadata.embedding
    metadata := c.metadata }

/-- What step 4 of `async_ingest` leaves behind: the chunks (with
`storage_error` attached where the call raised), the list of successfully
stored chunks, and the trace of `store_chunk` calls actually made. -/
structure StorageOutcome (α ε σ : Type) where
  chunks : List (TableChunk α ε)
  stored : List σ
  calls : List (StoreCall ε)

/-- One iteration of step 4 of `async_ingest`: call `store_chunk` for the
chunk; on success collect the returned value, on a raise attach
`storage_error` to the chunk's metadata and continue with the next chunk. -/
def storeStep (vec : VectorService ε σ) (acc : StorageOutcome α ε σ)
    (c : TableChunk α ε) : StorageOutcome α ε σ :=
  let call := mkStoreCall c
  match vec.store_chunk call with
  | .ok s =>
    { chunks := acc.chunks ++ [c], stored := acc.stored ++ [s]
      calls := acc.calls ++ [call] }
  | .error e =>
    { chunks := acc.chunks
        ++ [{ c with metadata := { c.metadata with storage_error := some e } }]
      stored := acc.stored
      calls := acc.calls ++ [call] }

/-- Step 4 of `async_ingest`: the storage loop over every chunk of the
chunking result, in order. -/
def storageStage (vec : VectorService ε σ) (chunks : List (TableChunk α ε)) :
    StorageOutcome α ε σ :=
  chunks.foldl (storeStep vec) { chunks := [], stored := [], calls := [] }

/-- A dynamically-typed Python value as the runtime stores it into the
`qa_pairs_count` slot of the metadata dataclass: the annotation says
`Optional[int]`, but Python stores whatever object the constructor was
given, so the slot's value space includes the QA-pair list itself. -/
inductive DynVal
  | pyNone
  | ofNat (n : Nat)
  | ofList (l : List QAPair)
deriving DecidableEq

/-- The `vector_storage_info` dict attached to the metadata at the end of
`async_ingest`. -/
structure VectorStorageInfo where
  stored_chunks : Nat
  total_chunks : Nat
  embedding_model : String
  vector_service : String
deriving DecidableEq

/-- The `TableDocumentMetadata` dataclass (the wall-clock `created_at` field
is omitted). `vector_storage_info` is the attribute `async_ingest` sets after
construction, `none` until then. -/
structure TableDocumentMetadata where
  document_id : String
  document_source : String
  document_class : Option String
  document_mime_type : Option String
  document_internal : Option String
  description : Option String
  filename : Option String
  file_size : Option Nat
  sheet_name : Option String
  total_rows : Option Nat
  total_columns : Option Nat
  qa_pairs_count : DynVal
  chunks_count : Option Nat
  processing_errors : List ErrRec
  processing_warnings : List WarnRec
  vector_storage_info : Option VectorStorageInfo := none
deriving DecidableEq

/-- `TableFAQIngestionService._create_document_metadata`: the field
assignments of the source, including `qa_pairs_count=extraction_result.qa_pairs`
— the list object itself, not its length. -/
def createDocumentMetadata (documentId documentSource : String)
    (extractionResult : TableExtractionResult) (chunkingResult : TableChunkingResult α ε)
    (documentClass documentMimeType documentInternal description filename : Option String)
    (fileSize : Option Nat) : TableDocumentMetadata :=
  { document_id := documentId
    document_source := documentSource
    document_class := documentClass
    document_mime_type := documentMimeType
    document_internal := documentInternal
    description := description
    filename := filename
    file_size := fileSize
    sheet_name := some extractionResult.sheet_name
    total_rows := some extractionResult.total_rows
    total_columns := some extractionResult.total_columns
    qa_pairs_count := DynVal.ofList extractionResult.qa_pairs
    chunks_count := some chunkingResult.total_chunks
    processing_errors := extractionResult.processing_errors
    processing_warnings := extractionResult.processing_warnings }

/-- `TableFAQIngestionService.async_ingest`.  The extraction stage never
raises (its source catches everything into a result); per-chunk embedding and
storage raises are caught per chunk; the one fallible operation outside any
handler is the `embedding_service.model_name` attribute access while building
`vector_storage_info`, and a raise there reaches the top-level
`except ...: raise` of the source, so the model returns `Except.error` — the
call re-raises to its caller.  `vectorServiceName` is
`type(self.vector_service).__name__`. -/
def asyncIngest (maxChunkSize overlap : Nat) (emb : EmbeddingService ε)
    (vec : VectorService ε σ) (vectorServiceName : String)
    (filename : String) (rawContentLen : Nat)
    (file : Option (List (String × Df))) (extractRaise : Option String)
    (documentId documentSource : String)
    (documentClass documentMimeType documentInternal desc : Option String) :
    Except String TableDocumentMetadata :=
  let er := (extract filename file extractRaise).1
  if !er.processing_errors.isEmpty then
    .ok (createDocumentMetadata documentId documentSource er
      ({ chunks := [], total_chunks := 0 } : TableChunkingResult QAPair ε)
      documentClass documentMimeType documentInternal desc
      (some filename) (some rawContentLen))
  else
    let cr : TableChunkingResult QAPair ε :=
      chunkService maxChunkSize overlap er.content er.qa_pairs
    let embedded := embeddingStage emb cr.chunks
    let so := storageStage vec embedded
    let md := createDocumentMetadata documentId documentSource er cr
      documentClass documentMimeType documentInternal desc
      (some filename) (some rawContentLen)
    match emb.model_name with
    | .error e => .error e
    | .ok mn =>
      let info : VectorStorageInfo :=
        { stored_chunks := so.stored.length
          total_chunks := cr.chunks.length
          embedding_model := mn
          vector_service := vectorServiceName }
      .ok { md with vector_storage_info := some info }

/-- The parameters `RAGIngestionAdapter.async_ingest` receives (`kwargs` is
the residual keyword mapping, opaque here). -/
structure ProxyArgs (β κ : Type) where
  filename : String
  raw_content : β
  documentId : String
  documentSource : String
  documentClass : Option String
  documentMimeType : Option String
  documentInternal : Option String
  desc : Option String
  kwargs : κ
deriving DecidableEq

/-- The keyword arguments of the delegated `original_service.async_ingest`
call: `desc` is `some v` when the call passes the `desc` keyword with value
`v`, and `none` when the call does not pass it at all. -/
structure ForwardedCall (β κ : Type) where
  filename : String
  raw_content : β
  documentId : String
  documentSource : String
  documentClass : Option String
  documentMimeType : Option String
  documentInternal : Option String
  desc : Option (Option String)
  kwargs : κ
deriving DecidableEq

/-- The index of the last `.` in a character list, as Python `str.rfind`. -/
def lastDotIndex (cs : List Char) : Option Nat :=
  ((List.range cs.length).filter fun i => cs[i]? = some '.').getLast?

/-- pathlib's name of a path: its last non-empty slash-separated component. -/
def pathName (filename : String) : String :=
  ((pySplitChar '/' filename).filter fun s => s != "").getLastD ""

/-- `pathlib.PurePath.suffix`: from the last dot of the name, unless that dot
is leading or final. -/
def pathSuffix (filename : String) : String :=
  let name := pathName filename
  match lastDotIndex name.data with
  | some i => if 0 < i ∧ i < name.length - 1 then ⟨name.data.drop i⟩ else ""
  | none => ""

/-- The spreadsheet-like extensions the proxy routes to the table pipeline. -/
def tableExtensions : List String := [".XLSX", ".XLS", ".XLSM", ".XLSB", ".CSV"]

/-- The dispatch test of `RAGIngestionAdapter.async_ingest`:
`Path(filename).suffix.upper()` against the extension list. -/
def isTableFile (filename : String) : Bool :=
  tableExtensions.contains (pyUpper (pathSuffix filename))

/-- The keyword arguments the source's delegation site passes to
`original_service.async_ingest`: every received parameter except `desc`,
which the call at lines 392-401 omits. -/
def forwardedOf (a : ProxyArgs β κ) : ForwardedCall β κ :=
  { filename := a.filename
    raw_content := a.raw_content
    documentId := a.documentId
    documentSource := a.documentSource
    documentClass := a.documentClass
    documentMimeType := a.documentMimeType
    documentInternal := a.documentInternal
    desc := none
    kwargs := a.kwargs }

/-- `RAGIngestionAdapter.async_ingest`, the proxy: spreadsheet-like filenames
go to `process_excel_upload` (abstracted as `excelRoute`), everything else to
the default ingestion service with the forwarded keyword arguments, whose
return value is returned unchanged (the `except ...: raise` wrapper is
transparent to values). -/
def ragProxyIngest (excelRoute : ProxyArgs β κ → ρ)
    (defaultIngest : ForwardedCall β κ → ρ) (a : ProxyArgs β κ) : ρ :=
  if isTableFile a.filename then excelRoute a else defaultIngest (forwardedOf a)

/-- Modelled from the spec: the vector storage collaborator
(`PostgreSQLVectorService`, not part of this repository) persists each record
under the chunk/node identifier with on-conflict-overwrite semantics (spec
section 6: "an upsert keyed by a chunk/node identifier ... on conflict,
overwrite").  The store is an association list of key and stored text. -/
def vectorUpsert (store : List (String × String)) (key text : String) :
    List (String × String) :=
  if store.any fun p => p.1 == key then
    store.map fun p => if p.1 == key then (key, text) else p
  else store ++ [(key, text)]

/-- Upsert a batch of records in order, as the sequential storage loop does. -/
def vectorUpsertMany (store : List (String × String))
    (items : List (String × String)) : List (String × String) :=
  items.foldl (fun s it => vectorUpsert s it.1 it.2) store

/-- A workbook sheet with the full required schema and one complete row, used
as a concrete input. -/
def dfValid : Df :=
  { columns := ["Nr.", "Frage", "Antwort"]
    rows := [[Cell.str "1", Cell.str "Q", Cell.str "A"]] }

/-- A one-sheet workbook whose sheet has the required schema. -/
def sheetsValid : List (String × Df) := [("Test_Chatbot", dfValid)]

/-- A sheet missing the required column `Antwort`, used as a concrete input. -/
def dfNoAntwort : Df := { columns := ["Nr.", "Frage"], rows := [] }

/-- The QA pair extraction produces for the one row of `dfValid`. -/
def qa0 : QAPair :=
  { question := "Q", answer := "A", comment := none, row_id := "1", index := 0 }

/-- An embedding collaborator whose calls succeed but whose `model_name`
attribute access raises (for example, the injected service object has no such
attribute). -/
def embBad : EmbeddingService Nat :=
  { get_text_embedding := fun _ => Except.ok 0
    model_name := Except.error "AttributeError: model_name" }

/-- An embedding collaborator whose calls and attribute accesses all succeed. -/
def embOk : EmbeddingService Nat :=
  { get_text_embedding := fun _ => Except.ok 0
    model_name := Except.ok "text-embedding-ada-002" }

/-- A vector-store collaborator whose calls all succeed. -/
def vecOk : VectorService Nat Nat := { store_chunk := fun _ => Except.ok 0 }

/-- A chunk whose metadata holds no embedding (as after a failed embedding
call). -/
def chunkNoEmb : TableChunk Nat Nat :=
  { content := "x"
    metadata :=
      { chunk_type := "table_qa", qa_pairs_count := 0, chunk_size := 1
        chunk_id := "table_chunk_0" }
    chunk_id := "table_chunk_0"
    qa_pairs := [] }

/-- A concrete proxy invocation for a non-spreadsheet filename that passes a
description. -/
def proxyArgs0 : ProxyArgs Nat Nat :=
  { filename := "report.pdf", raw_content := 7, documentId := "doc-1"
    documentSource := "upload", documentClass := none, documentMimeType := none
    documentInternal := none, desc := some "eine Beschreibung", kwargs := 0 }

/-- The storage records of a first document's chunks. -/
def docItems1 : List (String × String) :=
  (splitContentIntoChunks 1000 100 "Doc eins" ([] : List QAPair) (ε := Nat)).map
    fun c => (c.chunk_id, c.content)

/-- The storage records of a second, different document's chunks. -/
def docItems2 : List (String × String) :=
  (splitContentIntoChunks 1000 100 "Doc zwei" ([] : List QAPair) (ε := Nat)).map
    fun c => (c.chunk_id, c.content)

/-- The chunk-id bookkeeping invariant of the line loop: the chunk counter
equals the number of closed chunks, and the chunk at position `i` carries id
`table_chunk_<i>`. -/
def chunkIdsOk (st : ChunkState α ε) : Prop :=
  st.chunks.length = st.chunkId ∧
  ∀ i (h : i < st.chunks.length), st.chunks[i].chunk_id = "table_chunk_" ++ toString i

/-- C9: on every metadata build, the `qa_pairs_count` slot receives the
extraction result's `qa_pairs` list object itself, never an integer — in
particular never the list's length — despite the `Optional[int]` annotation. -/
theorem qa_pairs_count_is_the_list (documentId documentSource : String)
    (er : TableExtractionResult) (cr : TableChunkingResult QAPair Nat)
    (documentClass documentMimeType documentInternal description filename : Option String)
    (fileSize : Option Nat) :
    (createDocumentMetadata documentId documentSource er cr documentClass
        documentMimeType documentInternal description filename fileSize).qa_pairs_count
      = DynVal.ofList er.qa_pairs ∧
    ∀ n : Nat,
      (createDocumentMetadata documentId documentSource er cr documentClass
        documentMimeType documentInternal description filename fileSize).qa_pairs_count
      ≠ DynVal.ofNat n := by
  refine ⟨rfl, fun n h => ?_⟩
  exact DynVal.noConfusion h

/-- C1: the chunker's QA attribution restarts at `qa_pairs[0]` in every new
chunk (the index is the count within the current chunk), so on an input that
splits into two chunks the flattened per-chunk QA lists are `[[10], [10]]` —
the first pair twice and the second never — instead of `[[10], [20]]`. -/
theorem chunk_qa_attribution_restarts :
    ((splitContentIntoChunks 12 0 "## Frage 1\nxxxx\n## Frage 2\nyyyy" [10, 20]
        (ε := Nat)).map fun c => c.qa_pairs) = [[10], [10]] := by
  rfl

/-- C8: the staging file `/tmp/<filename>` is deleted on the no-valid-sheet
and success paths of `extract`, but persists when an unexpected exception
reaches the final `except` branch, which has no unlink. -/
theorem extract_tmp_file_leaks_on_raise :
    (extract "faq.xlsx" (some sheetsValid) (some "ValueError: boom")).2 = true ∧
    (extract "faq.xlsx" (some sheetsValid) none).2 = false ∧
    (extract "faq.xlsx" none none).2 = false := by
  exact ⟨rfl, rfl, rfl⟩

/-- C4 counterexample: for a file whose only sheet lacks the required column
`Antwort`, `extract` reports the error kind `no_valid_sheet` — not
`missing_required_columns` — with zero QA pairs. -/
theorem extract_missing_columns_kind_eval :
    ((extract "f.xlsx" (some [("Blatt1", dfNoAntwort)]) none).1.processing_errors.map
        fun e => e.error_type) = ["no_valid_sheet"] ∧
    ¬ "missing_required_columns" ∈
      ((extract "f.xlsx" (some [("Blatt1", dfNoAntwort)]) none).1.processing_errors.map
        fun e => e.error_type) ∧
    (extract "f.xlsx" (some [("Blatt1", dfNoAntwort)]) none).1.qa_pairs = [] := by
  refine ⟨rfl, by decide, rfl⟩

/-- C7 counterexample: the delegation site does not pass the received `desc`
parameter on to the default service — a default service observing its `desc`
keyword sees no such keyword although the proxy was called with one. -/
theorem proxy_drops_desc_eval :
    proxyArgs0.desc = some "eine Beschreibung" ∧
    ragProxyIngest (fun _ => (none : Option (Option String))) (fun c => c.desc)
      proxyArgs0 = none := by
  exact ⟨rfl, rfl⟩

/-- C6 counterexample: the storage loop calls `store_chunk` even for a chunk
whose metadata holds no embedding (the call carries `embedding = none`),
contradicting "chunks without embedding metadata are not sent". -/
theorem storage_sends_unembedded_eval :
    chunkNoEmb.metadata.embedding = none ∧
    (storageStage vecOk [chunkNoEmb]).calls = [mkStoreCall chunkNoEmb] ∧
    (storageStage vecOk [chunkNoEmb]).calls ≠ [] := by
  refine ⟨rfl, rfl, by decide⟩

/-- C2 counterexample: a concrete run on a valid workbook in which the
embedding service's `model_name` attribute access raises while
`vector_storage_info` is being built: `async_ingest` re-raises to its caller
instead of recording an `UnexpectedError` and returning metadata. -/
theorem async_ingest_reraises_eval :
    asyncIngest 1000 100 embBad vecOk "PostgreSQLVectorService" "faq.xlsx" 10
      (some sheetsValid) none "doc1" "upload" none none none none
      = Except.error "AttributeError: model_name" := by
  rfl

/-- The close block ignores `overlap`: the overlap lines are computed from
the already-reset buffer, so they are always empty. -/
theorem closeIfNeeded_overlap_inert (maxChunkSize overlap : Nat)
    (st : ChunkState α ε) (line : String) :
    closeIfNeeded maxChunkSize overlap st line = closeIfNeeded maxChunkSize 0 st line := by
  unfold closeIfNeeded
  split_ifs with h1
  · dsimp only
    split_ifs <;> rfl
  · rfl

/-- C5 (code bug): because the source resets the buffer before reading
`current_chunk_content[-3:]`, the overlap lines are always empty — chunking
with any `overlap` equals chunking with `overlap = 0` — and in the concrete
split with `overlap = 100` the second chunk starts directly at the boundary
line, carrying no line of the previous chunk. -/
theorem overlap_lines_always_empty (maxChunkSize overlap : Nat) (content : String)
    (qaPairs : List α) :
    (splitContentIntoChunks maxChunkSize overlap content qaPairs (ε := ε) =
      splitContentIntoChunks maxChunkSize 0 content qaPairs) ∧
    ((splitContentIntoChunks 12 100 "## Frage 1\nxxxx\n## Frage 2\nyyyy"
        ([10, 20] : List Nat) (ε := Nat)).map fun c => c.content)
      = ["## Frage 1\nxxxx", "## Frage 2\nyyyy"] := by
  constructor
  · unfold splitContentIntoChunks
    congr 1
    have h : chunkStep (α := α) (ε := ε) maxChunkSize overlap qaPairs
        = chunkStep maxChunkSize 0 qaPairs := by
      funext st line
      unfold chunkStep
      rw [closeIfNeeded_overlap_inert]
    rw [h]
  · rfl

/-- The storage loop's fold, relative to an arbitrary accumulator. -/
theorem storeStep_foldl (vec : VectorService ε σ) (chunks : List (TableChunk α ε)) :
    ∀ acc : StorageOutcome α ε σ,
      chunks.foldl (storeStep vec) acc =
        { chunks := acc.chunks ++ (chunks.map fun c =>
            match vec.store_chunk (mkStoreCall c) with
            | .ok _ => c
            | .error e =>
              { c with metadata := { c.metadata with storage_error := some e } })
          stored := acc.stored
            ++ (chunks.filterMap fun c => (vec.store_chunk (mkStoreCall c)).toOption)
          calls := acc.calls ++ chunks.map mkStoreCall } := by
  induction chunks with
  | nil => intro acc; simp
  | cons c t ih =>
    intro acc
    rw [List.foldl_cons, ih]
    unfold storeStep
    cases h : vec.store_chunk (mkStoreCall c) with
    | ok s => simp [h, Except.toOption]
    | error e => simp [h, Except.toOption]

/-- C6 (amended): the storage stage makes one `store_chunk` call per chunk —
for every chunk, embedded or not, with `embedding = metadata.get('embedding')`
— collects exactly the successful calls' return values in order, and attaches
`storage_error` to exactly the chunks whose call raised, leaving the loop to
continue. -/
theorem storage_attempts_every_chunk (vec : VectorService ε σ)
    (chunks : List (TableChunk α ε)) :
    (storageStage vec chunks).calls = chunks.map mkStoreCall ∧
    (storageStage vec chunks).stored
      = (chunks.filterMap fun c => (vec.store_chunk (mkStoreCall c)).toOption) ∧
    (storageStage vec chunks).chunks = (chunks.map fun c =>
      match vec.store_chunk (mkStoreCall c) with
      | .ok _ => c
      | .error e =>
        { c with metadata := { c.metadata with storage_error := some e } }) := by
  unfold storageStage
  rw [storeStep_foldl]
  exact ⟨by simp, by simp, by simp⟩

/-- C2 (amended): whenever the one fallible operation outside every handler —
the `model_name` attribute access while building `vector_storage_info` —
succeeds, `async_ingest` returns a metadata record, regardless of extraction
errors and of per-chunk embedding or storage failures. -/
theorem async_ingest_returns_metadata (maxChunkSize overlap : Nat)
    (emb : EmbeddingService ε) (vec : VectorService ε σ)
    (vectorServiceName filename : String) (rawContentLen : Nat)
    (file : Option (List (String × Df))) (extractRaise : Option String)
    (documentId documentSource : String)
    (documentClass documentMimeType documentInternal desc : Option String)
    (mn : String) (h : emb.model_name = Except.ok mn) :
    ∃ md, asyncIngest maxChunkSize overlap emb vec vectorServiceName filename
      rawContentLen file extractRaise documentId documentSource documentClass
      documentMimeType documentInternal desc = Except.ok md := by
  unfold asyncIngest
  dsimp only
  by_cases hc :
      (!(extract filename file extractRaise).1.processing_errors.isEmpty) = true
  · rw [if_pos hc]
    exact ⟨_, rfl⟩
  · rw [if_neg hc, h]
    exact ⟨_, rfl⟩

/-- Witness for the amended C2 theorem at a concrete healthy run. -/
theorem async_ingest_returns_metadata_w :
    ∃ md, asyncIngest 1000 100 embOk vecOk "PostgreSQLVectorService" "faq.xlsx" 10
      (some sheetsValid) none "doc1" "upload" none none none none
      = Except.ok md :=
  async_ingest_returns_metadata 1000 100 embOk vecOk "PostgreSQLVectorService"
    "faq.xlsx" 10 (some sheetsValid) none "doc1" "upload" none none none none
    "text-embedding-ada-002" rfl

/-- A successful association-list lookup pairs the key with a member. -/
theorem lookup_mem_of_eq_some {l : List (String × Df)} {k : String} {v : Df}
    (h : l.lookup k = some v) : (k, v) ∈ l := by
  induction l with
  | nil => simp at h
  | cons p t ih =>
    obtain ⟨k', v'⟩ := p
    rw [List.lookup_cons] at h
    cases hk : (k == k') with
    | true =>
      rw [hk] at h
      injection h with hv
      have hkk : k = k' := by simpa using hk
      subst hv
      subst hkk
      exact List.mem_cons_self _ _
    | false =>
      rw [hk] at h
      exact List.mem_cons_of_mem _ (ih h)

/-- When every sheet of the file has a missing required column, both selection
loops fail. -/
theorem findValidSheet_none (sheets : List (String × Df))
    (h : ∀ p ∈ sheets, requiredMissing p.2 ≠ []) :
    findValidSheet sheets = none := by
  have hchk : ∀ nm, sheetCheck sheets nm = none := by
    intro nm
    unfold sheetCheck
    cases hl : sheets.lookup nm with
    | none => rfl
    | some df =>
      have hne := h (nm, df) (lookup_mem_of_eq_some hl)
      dsimp only
      rw [if_neg]
      intro hemp
      exact hne (List.isEmpty_iff.mp hemp)
  have hfm : expectedSheets.filterMap (sheetCheck sheets) = [] := by
    unfold expectedSheets
    simp [List.filterMap_cons, hchk]
  have hfind : sheets.find? (fun p => (requiredMissing p.2).isEmpty) = none := by
    rw [List.find?_eq_none]
    intro x hx
    simp only [List.isEmpty_iff]
    exact h x hx
  unfold findValidSheet
  rw [hfm]
  simpa using hfind

/-- C4 (amended): for every file in which every sheet lacks at least one
required column, `extract` returns zero QA pairs and one processing error of
kind `no_valid_sheet` (selection only ever returns fully-valid sheets, so the
`missing_required_columns` branch cannot fire for such files). -/
theorem extract_all_sheets_invalid (filename : String)
    (sheets : List (String × Df)) (bodyRaise : Option String)
    (h : ∀ p ∈ sheets, requiredMissing p.2 ≠ []) :
    (extract filename (some sheets) bodyRaise).1.qa_pairs = [] ∧
    ((extract filename (some sheets) bodyRaise).1.processing_errors.map
      fun e => e.error_type) = ["no_valid_sheet"] := by
  have hf : Option.bind (some sheets) findValidSheet = none := findValidSheet_none sheets h
  unfold extract
  rw [hf]
  exact ⟨rfl, rfl⟩

/-- Witness for the amended C4 theorem at a concrete one-sheet file. -/
theorem extract_all_sheets_invalid_w :
    (extract "f.xlsx" (some [("Blatt1", dfNoAntwort)]) none).1.qa_pairs = [] ∧
    ((extract "f.xlsx" (some [("Blatt1", dfNoAntwort)]) none).1.processing_errors.map
      fun e => e.error_type) = ["no_valid_sheet"] :=
  extract_all_sheets_invalid "f.xlsx" [("Blatt1", dfNoAntwort)] none (by decide)

/-- C7 (amended): for every non-spreadsheet filename the proxy returns the
default service's return value unchanged, calling it with filename, raw
content, documentId, documentSource, documentClass, documentMimeType,
documentInternal and the residual keyword arguments unchanged — but without
the received `desc` parameter, which the delegation omits. -/
theorem proxy_forwards_except_desc (excelRoute : ProxyArgs β κ → ρ)
    (defaultIngest : ForwardedCall β κ → ρ) (a : ProxyArgs β κ)
    (h : isTableFile a.filename = false) :
    ragProxyIngest excelRoute defaultIngest a = defaultIngest (forwardedOf a) ∧
    (forwardedOf a).filename = a.filename ∧
    (forwardedOf a).raw_content = a.raw_content ∧
    (forwardedOf a).documentId = a.documentId ∧
    (forwardedOf a).documentSource = a.documentSource ∧
    (forwardedOf a).documentClass = a.documentClass ∧
    (forwardedOf a).documentMimeType = a.documentMimeType ∧
    (forwardedOf a).documentInternal = a.documentInternal ∧
    (forwardedOf a).kwargs = a.kwargs ∧
    (forwardedOf a).desc = none := by
  refine ⟨?_, rfl, rfl, rfl, rfl, rfl, rfl, rfl, rfl, rfl⟩
  unfold ragProxyIngest
  simp [h]

/-- Witness for the amended C7 theorem at filename `report.pdf`. -/
theorem proxy_forwards_except_desc_w :
    ragProxyIngest (fun _ => (0 : Nat)) (fun _ => 1) proxyArgs0
        = (fun _ => (1 : Nat)) (forwardedOf proxyArgs0) ∧
    (forwardedOf proxyArgs0).filename = proxyArgs0.filename ∧
    (forwardedOf proxyArgs0).raw_content = proxyArgs0.raw_content ∧
    (forwardedOf proxyArgs0).documentId = proxyArgs0.documentId ∧
    (forwardedOf proxyArgs0).documentSource = proxyArgs0.documentSource ∧
    (forwardedOf proxyArgs0).documentClass = proxyArgs0.documentClass ∧
    (forwardedOf proxyArgs0).documentMimeType = proxyArgs0.documentMimeType ∧
    (forwardedOf proxyArgs0).documentInternal = proxyArgs0.documentInternal ∧
    (forwardedOf proxyArgs0).kwargs = proxyArgs0.kwargs ∧
    (forwardedOf proxyArgs0).desc = none :=
  proxy_forwards_except_desc (fun _ => (0 : Nat)) (fun _ => 1) proxyArgs0 (by decide)

/-- Appending a chunk whose id continues the positional sequence preserves
positional ids. -/
theorem ids_append {l : List (TableChunk α ε)} {c : TableChunk α ε} {n : Nat}
    (hlen : l.length = n)
    (hl : ∀ i (h : i < l.length), l[i].chunk_id = "table_chunk_" ++ toString i)
    (hc : c.chunk_id = "table_chunk_" ++ toString n) :
    ∀ i (h : i < (l ++ [c]).length),
      (l ++ [c])[i].chunk_id = "table_chunk_" ++ toString i := by
  intro i h
  rw [List.length_append, List.length_singleton] at h
  by_cases hi : i < l.length
  · rw [List.getElem_append_left hi]
    exact hl i hi
  · have hieq : i = l.length := by omega
    subst hieq
    rw [List.getElem_concat_length l c l.length rfl]
    rw [hlen]
    exact hc

/-- The QA-attribution block touches neither the chunk list nor the chunk
counter. -/
theorem attributeQa_chunks_eq (qaPairs : List α) (st : ChunkState α ε)
    (line : String) :
    (attributeQa qaPairs st line).chunks = st.chunks ∧
    (attributeQa qaPairs st line).chunkId = st.chunkId := by
  unfold attributeQa
  split
  · split <;> exact ⟨rfl, rfl⟩
  · exact ⟨rfl, rfl⟩

/-- The close block preserves the chunk-id invariant. -/
theorem closeIfNeeded_ids (m o : Nat) (st : ChunkState α ε) (line : String)
    (h : chunkIdsOk st) : chunkIdsOk (closeIfNeeded m o st line) := by
  unfold closeIfNeeded
  split
  · dsimp only
    split
    · exact ⟨by simp [h.1], ids_append h.1 h.2 rfl⟩
    · exact ⟨by simp [h.1], ids_append h.1 h.2 rfl⟩
  · exact h

/-- The chunk-id invariant only reads the chunk list and the counter, so it
transfers along states agreeing on them. -/
theorem chunkIdsOk_congr {s t : ChunkState α ε} (hc : s.chunks = t.chunks)
    (hid : s.chunkId = t.chunkId) (h : chunkIdsOk t) : chunkIdsOk s := by
  unfold chunkIdsOk at h ⊢
  rw [hc, hid]
  exact h

/-- One full line-loop iteration preserves the chunk-id invariant. -/
theorem chunkStep_ids (m o : Nat) (q : List α) (st : ChunkState α ε)
    (line : String) (h : chunkIdsOk st) : chunkIdsOk (chunkStep m o q st line) := by
  have h1 : chunkIdsOk (closeIfNeeded m o st line) := closeIfNeeded_ids m o st line h
  have h2 := attributeQa_chunks_eq q (appendLine (closeIfNeeded m o st line) line) line
  unfold chunkStep
  exact chunkIdsOk_congr h2.1 h2.2 (chunkIdsOk_congr rfl rfl h1)

/-- The whole line loop preserves the chunk-id invariant. -/
theorem foldl_chunkStep_ids (m o : Nat) (q : List α) :
    ∀ (lines : List String) (st : ChunkState α ε), chunkIdsOk st →
      chunkIdsOk (lines.foldl (chunkStep m o q) st) := by
  intro lines
  induction lines with
  | nil => exact fun st h => h
  | cons l t ih => exact fun st h => ih _ (chunkStep_ids m o q st l h)

/-- The final flush keeps positional ids. -/
theorem finishChunks_ids (st : ChunkState α ε) (h : chunkIdsOk st) :
    ∀ i (hi : i < (finishChunks st).length),
      (finishChunks st)[i].chunk_id = "table_chunk_" ++ toString i := by
  unfold finishChunks
  split
  · exact ids_append h.1 h.2 rfl
  · exact h.2

/-- Every chunk the chunker returns carries the id of its position. -/
theorem splitContent_ids (m o : Nat) (content : String) (q : List α) (i : Nat)
    (hi : i < (splitContentIntoChunks m o content q (ε := ε)).length) :
    (splitContentIntoChunks m o content q (ε := ε))[i].chunk_id
      = "table_chunk_" ++ toString i := by
  have hinv : chunkIdsOk ((pySplitChar '\n' content).foldl (chunkStep m o q)
      (initState (α := α) (ε := ε))) :=
    foldl_chunkStep_ids m o q _ _ ⟨rfl, fun j hj => by simp [initState] at hj⟩
  exact finishChunks_ids _ hinv i hi

/-- C3: chunk ids are the fixed positional sequence `table_chunk_0`,
`table_chunk_1`, ... for every input — so two runs over different documents
give the chunk at one position the same id — and under the spec-modelled
keyed upsert, ingesting a second document after a first overwrites the stored
record at the shared key. -/
theorem chunk_ids_positional (m1 o1 m2 o2 : Nat) (c1 c2 : String)
    (q1 q2 : List QAPair) (i : Nat)
    (h1 : i < (splitContentIntoChunks m1 o1 c1 q1 (ε := Nat)).length)
    (h2 : i < (splitContentIntoChunks m2 o2 c2 q2 (ε := Nat)).length) :
    (splitContentIntoChunks m1 o1 c1 q1 (ε := Nat))[i].chunk_id
        = "table_chunk_" ++ toString i ∧
    (splitContentIntoChunks m1 o1 c1 q1 (ε := Nat))[i].chunk_id
        = (splitContentIntoChunks m2 o2 c2 q2 (ε := Nat))[i].chunk_id ∧
    (vectorUpsertMany (vectorUpsertMany [] docItems1) docItems2).lookup
        "table_chunk_0" = some "Doc zwei" := by
  refine ⟨splitContent_ids m1 o1 c1 q1 i h1, ?_, by rfl⟩
  rw [splitContent_ids m1 o1 c1 q1 i h1, splitContent_ids m2 o2 c2 q2 i h2]

/-- Witness for C3 at two concrete single-chunk inputs. -/
theorem chunk_ids_positional_w :
    ((splitContentIntoChunks 5 0 "abc" ([] : List QAPair) (ε := Nat)).get
        ⟨0, by decide⟩).chunk_id = "table_chunk_" ++ toString 0 :=
  (chunk_ids_positional 5 0 5 0 "abc" "abc" [] [] 0 (by decide) (by decide)).1

/-- Dropping a prefix twice drops it once. -/
theorem dropWhile_dropWhile_same (p : α → Bool) (l : List α) :
    (l.dropWhile p).dropWhile p = l.dropWhile p := by
  induction l with
  | nil => rfl
  | cons a t ih =>
    by_cases h : p a
    · rw [List.dropWhile_cons_of_pos h]
      exact ih
    · rw [List.dropWhile_cons_of_neg h, List.dropWhile_cons_of_neg h]

/-- A stripped character list has no trailing whitespace. -/
theorem stripChars_noTrail (l : List Char) :
    (stripChars l).reverse.dropWhile Char.isWhitespace = (stripChars l).reverse := by
  unfold stripChars
  rw [List.reverse_reverse]
  exact dropWhile_dropWhile_same _ _

/-- A stripped character list has no leading whitespace. -/
theorem stripChars_noLead (l : List Char) :
    (stripChars l).dropWhile Char.isWhitespace = stripChars l := by
  unfold stripChars
  cases ht : l.dropWhile Char.isWhitespace with
  | nil => rfl
  | cons a t =>
    have hpa : Char.isWhitespace a = false := by
      have h0 := List.head?_dropWhile_not Char.isWhitespace l
      rw [ht] at h0
      simpa using h0
    rw [List.reverse_cons, List.dropWhile_append]
    split
    · simp [hpa]
    · rw [List.reverse_append]
      simp [hpa]

/-- Stripping is idempotent on character lists. -/
theorem stripChars_idem (l : List Char) : stripChars (stripChars l) = stripChars l := by
  show (((stripChars l).dropWhile Char.isWhitespace).reverse.dropWhile
      Char.isWhitespace).reverse = stripChars l
  rw [stripChars_noLead, stripChars_noTrail, List.reverse_reverse]

/-- Python strip is idempotent: a stripped string strips to itself, i.e. it
has no leading or trailing whitespace. -/
theorem pyStrip_idem (s : String) : pyStrip (pyStrip s) = pyStrip s := by
  show (⟨stripChars (stripChars s.data)⟩ : String) = ⟨stripChars s.data⟩
  rw [stripChars_idem]

/-- C10: every QA pair produced by `_extract_qa_pairs_from_dataframe` has a
non-empty question and answer that are fixed points of Python strip — no
leading or trailing whitespace — because rows blank or null after trimming
were dropped and each surviving field was stripped. -/
theorem extracted_qa_trimmed (df : Df) (qa : QAPair)
    (h : qa ∈ extractQaPairsFromDf df) :
    qa.question ≠ "" ∧ qa.answer ≠ "" ∧
    pyStrip qa.question = qa.question ∧ pyStrip qa.answer = qa.answer := by
  unfold extractQaPairsFromDf at h
  rw [List.mem_filterMap] at h
  obtain ⟨p, hp, hqa⟩ := h
  dsimp only at hqa
  split at hqa
  · injection hqa with hqa'
    subst hqa'
    rename_i hcond
    exact ⟨hcond.1, hcond.2, pyStrip_idem _, pyStrip_idem _⟩
  · cases hqa

/-- Witness for C10 at the one extracted pair of `dfValid`. -/
theorem extracted_qa_trimmed_w :
    qa0 ∈ extractQaPairsFromDf dfValid ∧
    (qa0.question ≠ "" ∧ qa0.answer ≠ "" ∧
     pyStrip qa0.question = qa0.question ∧ pyStrip qa0.answer = qa0.answer) :=
  ⟨by decide, extracted_qa_trimmed dfValid qa0 (by decide)⟩

end TableFaq
